import Mathlib

/-
Verification of the langfuse instrumentation layer of the summarization
pipeline (salshams/langfuse).

Shallow embedding of:
  - src/langfuse_node_wrapper.py : the value summarizer, field-selection
    snapshot engine, per-node policy resolution and the async node wrapper
    (this module is the one build_graph.py imports, so it is treated as
    the authoritative wrapper implementation);
  - src/langfuse_filtered_callback.py : the prompt-sanitizing callback;
  - src/build_graph.py : graph construction and the per-chapter closure.

Python runtime values are modelled by the inductive PyVal; Python
exceptions by PyExc with fallible code returning Except PyExc.  Strings
are modelled through their character lists, so len and slicing are
List.length and List.take on String.data.
-/

/-- A Python runtime value, as the wrapper and callback code can observe it.
Constructors partition values by the duck-typing checks the source performs:
`df` models values with a `shape` attribute (the pandas branch), `obj`
models other attribute-bearing objects.  For `obj`: `attrs` backs getattr
and hasattr, `hasModelDump` and `dump` model the model_dump capability
(`dump = none` means model_dump raises), `reprStr`/`strStr` are the results
of repr() and str() (`none` means the call raises). -/
inductive PyVal where
  | none
  | str (s : String)
  | int (n : Int)
  | bool (b : Bool)
  | list (xs : List PyVal)
  | dict (entries : List (String × PyVal))
  | df (typeName : String) (shape : List Nat) (columns : Option (List String))
  | obj (typeName : String) (attrs : List (String × PyVal)) (hasModelDump : Bool)
        (dump : Option (List (String × PyVal))) (reprStr : Option String)
        (strStr : Option String)

/-- A Python exception, carrying the message that str(e) would render. -/
inductive PyExc where
  | valueError (msg : String)
  | typeError (msg : String)
  | other (msg : String)
deriving DecidableEq, Repr

/-- The message str(e) of an exception. -/
def pyExcMsg : PyExc → String
  | PyExc.valueError m => m
  | PyExc.typeError m => m
  | PyExc.other m => m

/-- Python len of a string (number of characters). -/
def pyLen (s : String) : Nat := s.data.length

/-- Python slice s[:n]. -/
def pyTake (s : String) (n : Nat) : String := String.mk (s.data.take n)

/-- Python slice s[n:]. -/
def pyDrop (s : String) (n : Nat) : String := String.mk (s.data.drop n)

/-- Python s.lower(). -/
def pyLower (s : String) : String := String.mk (s.data.map Char.toLower)

/-- Python substring test: needle in hay. -/
def strContains (hay needle : String) : Bool :=
  hay.data.tails.any (fun t => needle.data.isPrefixOf t)

/-- Python hay.startswith(pre). -/
def strStartsWith (hay pre : String) : Bool := pre.data.isPrefixOf hay.data

/-- Split a character list at the first occurrence of c, returning the parts
before and after it; nothing when c does not occur.  Models the two-part
behaviour of Python split(c, 1). -/
def splitAtFirst (c : Char) : List Char → Option (List Char × List Char)
  | [] => Option.none
  | x :: xs =>
      if x = c then some ([], xs)
      else match splitAtFirst c xs with
        | some (a, b) => some (x :: a, b)
        | Option.none => Option.none

/-- Python p.split(sep, 1) for a one-character separator: the top segment and
the rest, or nothing when the separator does not occur (which is also the
model of the test sep in p). -/
def splitFirstDot (p : String) : Option (String × String) :=
  match splitAtFirst '.' p.data with
  | some (a, b) => some (String.mk a, String.mk b)
  | Option.none => Option.none

/-- Python p.split(c): all segments, with empty segments kept, and the empty
string splitting to one empty segment. -/
def splitChar (c : Char) : List Char → List (List Char)
  | [] => [[]]
  | x :: xs =>
      if x = c then [] :: splitChar c xs
      else match splitChar c xs with
        | [] => [[x]]
        | a :: as => (x :: a) :: as

/-- The Python test v is None. -/
def pyIsNone : PyVal → Bool
  | PyVal.none => true
  | _ => false

/-- The Python test isinstance(v, dict). -/
def pyIsDict : PyVal → Bool
  | PyVal.dict _ => true
  | _ => false

/-- type(v).__name__. -/
def pyTypeName : PyVal → String
  | PyVal.none => "NoneType"
  | PyVal.str _ => "str"
  | PyVal.int _ => "int"
  | PyVal.bool _ => "bool"
  | PyVal.list _ => "list"
  | PyVal.dict _ => "dict"
  | PyVal.df t _ _ => t
  | PyVal.obj t _ _ _ _ _ => t

/-- Python truthiness bool(v); nothing models the pandas DataFrame case,
whose truth value raises.  Generic objects default to true. -/
def pyTruthy : PyVal → Option Bool
  | PyVal.none => some false
  | PyVal.str s => some (!s.data.isEmpty)
  | PyVal.int n => some (decide (n ≠ 0))
  | PyVal.bool b => some b
  | PyVal.list xs => some (!xs.isEmpty)
  | PyVal.dict es => some (!es.isEmpty)
  | PyVal.df _ _ _ => Option.none
  | PyVal.obj _ _ _ _ _ _ => some true

/-- repr of a value rendered one level deep.  Python renders containers
recursively; no proof below inspects the rendering of a nested container,
so nesting is cut off at one level (and a raising element repr inside a
container, which would make the container repr raise, is rendered by a
placeholder instead). -/
def pyReprAtom : PyVal → String
  | PyVal.none => "None"
  | PyVal.str s => "\x27" ++ s ++ "\x27"
  | PyVal.int n => toString n
  | PyVal.bool b => if b then "True" else "False"
  | PyVal.list _ => "[...]"
  | PyVal.dict _ => "\x7b...\x7d"
  | PyVal.df t _ _ => t
  | PyVal.obj t _ _ _ r _ => r.getD ("<" ++ t ++ ">")

/-- Rendering of a dict by str(), one level deep. -/
def pyRenderDict (es : List (String × PyVal)) : String :=
  "\x7b" ++ String.intercalate ", "
    (es.map (fun e => "\x27" ++ e.1 ++ "\x27: " ++ pyReprAtom e.2)) ++ "\x7d"

/-- Python str(v); nothing when the call raises (an object whose str raises). -/
def pyStrOf : PyVal → Option String
  | PyVal.str s => some s
  | PyVal.obj _ _ _ _ _ st => st
  | PyVal.list xs =>
      some ("[" ++ String.intercalate ", " (xs.map pyReprAtom) ++ "]")
  | PyVal.dict es => some (pyRenderDict es)
  | v => some (pyReprAtom v)

/-- One getattr / item-access step of _get_attr_from_obj
(langfuse_node_wrapper.py, lines 82-86): dicts are read with get, other
objects with getattr(cur, part, None).  A DataFrame exposes its shape and
columns; scalars and collections have none of the looked-up attributes. -/
def getAttrStep (cur : PyVal) (part : String) : PyVal :=
  match cur with
  | PyVal.dict es => (List.lookup part es).getD PyVal.none
  | PyVal.df _ shape cols =>
      if part == "shape" then PyVal.list (shape.map (fun n => PyVal.int (Int.ofNat n)))
      else if part == "columns" then
        match cols with
        | some cs => PyVal.list (cs.map PyVal.str)
        | Option.none => PyVal.none
      else PyVal.none
  | PyVal.obj _ attrs _ _ _ _ => (List.lookup part attrs).getD PyVal.none
  | _ => PyVal.none

/-- _get_attr_from_obj (langfuse_node_wrapper.py, lines 75-89): walk the
dotted path, returning None as soon as the cursor is None, reading dicts
by key and other objects by attribute with a None default. -/
def _get_attr_from_obj (obj : PyVal) (path : String) : PyVal :=
  match obj with
  | PyVal.none => PyVal.none
  | o =>
      (splitChar '.' path.data).foldl
        (fun cur part =>
          match cur with
          | PyVal.none => PyVal.none
          | c => getAttrStep c (String.mk part)) o

/-- The bounded, serializable descriptor produced by the value summarizer:
one constructor per shape of dict the Python code returns.  redactedPrompt
is the fixed marker dict with note redacted-prompt; errorD is the
per-path error dict written by the snapshot loops. -/
inductive Descriptor where
  | noneD
  | dfD (typeName : String) (nRows nCols : Option Nat) (columnsSample : Option (List String))
  | collD (typeName : String) (len : Nat)
  | dictD (keysSample : List String)
  | strD (len : Nat) (preview : String)
  | intD (value : Int)
  | boolD (value : Bool)
  | recordD (typeName : String) (keysSample : List String)
  | reprD (typeName : String) (reprPreview : String)
  | typeOnlyD (typeName : String)
  | redactedPrompt
  | errorD (msg : String)
deriving DecidableEq, Repr

/-- The try-body of _summarize_value (langfuse_node_wrapper.py, lines 28-68),
dispatching on the runtime shape of v in source order: None, shape-bearing,
collection, mapping, text, number and bool, model_dump-bearing record, and
finally repr.  It raises exactly when the final repr call raises. -/
def _summarize_try (v : PyVal) (max_str_preview : Option Nat) : Except PyExc Descriptor :=
  match v with
  | PyVal.none => Except.ok Descriptor.noneD
  | PyVal.df t shape cols =>
      Except.ok (Descriptor.dfD t shape.head?
        (if shape.length > 1 then shape.get? 1 else Option.none)
        (cols.map (fun cs => cs.take 10)))
  | PyVal.list xs => Except.ok (Descriptor.collD "list" xs.length)
  | PyVal.dict es => Except.ok (Descriptor.dictD ((es.map Prod.fst).take 20))
  | PyVal.str s =>
      Except.ok (Descriptor.strD (pyLen s)
        (match max_str_preview with
         | Option.none => s
         | some n => if pyLen s ≤ n then s else pyTake s n ++ "... [truncated]"))
  | PyVal.int n => Except.ok (Descriptor.intD n)
  | PyVal.bool b => Except.ok (Descriptor.boolD b)
  | PyVal.obj t _ hasModelDump dump reprStr _ =>
      match (if hasModelDump then dump else Option.none) with
      | some d => Except.ok (Descriptor.recordD t ((d.map Prod.fst).take 20))
      | Option.none =>
          match reprStr with
          | some r =>
              Except.ok (Descriptor.reprD t
                (pyTake r 300 ++ (if pyLen r > 300 then "..." else "")))
          | Option.none => Except.error (PyExc.other "repr raised")

/-- _summarize_value (langfuse_node_wrapper.py, lines 27-73): the try-body
with the two nested except handlers, the first returning a str(v) preview
and the second, when str(v) itself raises, only the type name. -/
def _summarize_value (v : PyVal) (max_str_preview : Option Nat) : Except PyExc Descriptor :=
  match _summarize_try v max_str_preview with
  | Except.ok d => Except.ok d
  | Except.error _ =>
      match pyStrOf v with
      | some s => Except.ok (Descriptor.reprD (pyTypeName v) (pyTake s 300))
      | Option.none => Except.ok (Descriptor.typeOnlyD (pyTypeName v))

/-- The per-path except handler of the snapshot loops
(langfuse_node_wrapper.py, lines 128-129 and 209-210): a raising path is
recorded as an error dict instead of propagating. -/
def summarizeCaught (v : PyVal) (m : Option Nat) : Descriptor :=
  match _summarize_value v m with
  | Except.ok d => d
  | Except.error e => Descriptor.errorD (pyExcMsg e)

/-- CREATE_PROMPT_NODE_PREVIEW_CHARS (langfuse_node_wrapper.py, line 25):
None, meaning no truncation for the designated prompt-construction stage. -/
def CREATE_PROMPT_NODE_PREVIEW_CHARS : Option Nat := Option.none

/-- One path entry of _filter_snapshot (langfuse_node_wrapper.py, lines
103-129): redact prompt-keyword paths on non-whitelisted stages when
truncation is on; otherwise resolve the path and summarize it with the
path-derived preview length (120 by default, 200 for designated long-text
field names, unlimited for the whitelisted stage on designated fields, and
unlimited whenever truncation is off). -/
def snapshot_entry (source : PyVal) (node_name : String) (truncate : Bool)
    (p : String) : Descriptor :=
  let pl := pyLower p
  if (strContains pl "prompt" || strContains pl "prompt_deck")
      && !(node_name == "create_prompt_node") && truncate then
    Descriptor.redactedPrompt
  else
    let val := _get_attr_from_obj source p
    let max1 : Option Nat :=
      if strContains pl "mer_markdown" || strContains pl "markdown_output"
          || strContains pl "llm_response" then some 200 else some 120
    let max2 : Option Nat :=
      if node_name == "create_prompt_node"
          && (strContains pl "mer_markdown" || strContains pl "prompt") then
        CREATE_PROMPT_NODE_PREVIEW_CHARS
      else max1
    let max3 : Option Nat := if !truncate then Option.none else max2
    summarizeCaught val max3

/-- _filter_snapshot (langfuse_node_wrapper.py, lines 91-130): the snapshot
is one entry per requested dotted path (an empty path list gives the empty
snapshot). -/
def _filter_snapshot (source : PyVal) (paths : List String) (node_name : String)
    (truncate : Bool) : List (String × Descriptor) :=
  paths.map (fun p => (p, snapshot_entry source node_name truncate p))

/-- The preview length used by the output-snapshot loop
(langfuse_node_wrapper.py, lines 202-218): None when truncation is off,
200 otherwise. -/
def outTruncate (truncate_output : Bool) : Option Nat :=
  if truncate_output then some 200 else Option.none

/-- One path entry of the output-snapshot loop of the wrapper
(langfuse_node_wrapper.py, lines 190-220).  When the result is a dict:
a dotted path a.b reads result.get(a) and descends into it with b, falling
back to the input state at the full path when result.get(a) is None; an
undotted path reads result[p] when the key is present, else falls back to
the input state.  When the result is not a dict: a path starting result.
strips the marker and resolves on the result, any other path resolves on
the result, falling back to the input state when that value is falsy (a
value whose truth test raises is recorded by the per-path error handler). -/
def output_entry (result state : PyVal) (truncate_output : Bool) (p : String) :
    Descriptor :=
  let m := outTruncate truncate_output
  match result with
  | PyVal.dict es =>
      (match splitFirstDot p with
       | some (top, rest) =>
           let v0 := (List.lookup top es).getD PyVal.none
           if pyIsNone v0 then summarizeCaught (_get_attr_from_obj state p) m
           else summarizeCaught (_get_attr_from_obj v0 rest) m
       | Option.none =>
           match List.lookup p es with
           | some v => summarizeCaught v m
           | Option.none => summarizeCaught (_get_attr_from_obj state p) m)
  | r =>
      if strStartsWith p "result." then
        summarizeCaught (_get_attr_from_obj r (pyDrop p 7)) m
      else
        match pyTruthy (_get_attr_from_obj r p) with
        | some true => summarizeCaught (_get_attr_from_obj r p) m
        | some false => summarizeCaught (_get_attr_from_obj state p) m
        | Option.none =>
            Descriptor.errorD "The truth value of a DataFrame is ambiguous."

/-- The output snapshot of the wrapper (langfuse_node_wrapper.py, lines
190-220): one entry per configured output path. -/
def output_snapshot (result state : PyVal) (paths : List String)
    (truncate_output : Bool) : List (String × Descriptor) :=
  paths.map (fun p => (p, output_entry result state truncate_output p))

/-- The tracing client as the wrapper can observe it: whether opening the
span raises and whether the two update_trace calls raise. -/
structure Client where
  startSpanFails : Bool
  updateInputFails : Bool
  updateOutputFails : Bool
deriving DecidableEq, Repr

/-- One successful span interaction recorded during a wrapped invocation. -/
inductive SpanEvent where
  | inputSnap (snap : List (String × Descriptor))
  | outputErr (msg : String)
  | outputSnap (snap : List (String × Descriptor))
deriving DecidableEq, Repr

/-- One invocation of the async wrapped closure produced by wrap_node
(langfuse_node_wrapper.py, lines 161-230), for an already-resolved per-node
policy.  Returns the outcome the caller observes, the span interactions
that succeeded, and how many times the underlying node callable ran.
Faithful points: a missing client (get_client raising or returning None)
runs the node bare; a failure while opening the span, or while the logging
f-string renders str(state) (line 174), is caught by the outer handler
which runs the node bare; update_trace failures are swallowed; a node
exception is re-raised out of the span scope, where the outer except
catches it and runs the node callable a second time (lines 227-229). -/
def wrapped_run (input_paths output_paths : List String)
    (truncate_input truncate_output : Bool) (node_name : String)
    (node : PyVal → Except PyExc PyVal) (client : Option Client)
    (state : PyVal) : Except PyExc PyVal × List SpanEvent × Nat :=
  match client with
  | Option.none => (node state, [], 1)
  | some c =>
      if c.startSpanFails then (node state, [], 1)
      else
        match pyStrOf state with
        | Option.none => (node state, [], 1)
        | some _ =>
            let ev1 : List SpanEvent :=
              if c.updateInputFails then []
              else [SpanEvent.inputSnap
                      (_filter_snapshot state input_paths node_name truncate_input)]
            match node state with
            | Except.error e =>
                let ev2 : List SpanEvent :=
                  if c.updateOutputFails then [] else [SpanEvent.outputErr (pyExcMsg e)]
                (node state, ev1 ++ ev2, 2)
            | Except.ok result =>
                let ev2 : List SpanEvent :=
                  if c.updateOutputFails then []
                  else [SpanEvent.outputSnap
                          (output_snapshot result state output_paths truncate_output)]
                (Except.ok result, ev1 ++ ev2, 1)

/-- The per-node policy wrap_node extracts from the loaded configuration:
the raw configured values for the two path lists and the two truncation
flags (kept as runtime values, exactly as cfg.get returns them). -/
structure NodePolicy where
  input : PyVal
  output : PyVal
  truncate_input : PyVal
  truncate_output : PyVal

/-- The policy wrap_node falls back to when the resolved entry is not a
mapping: empty path lists and both truncation flags true. -/
def defaultNodePolicy : NodePolicy :=
  { input := PyVal.list [], output := PyVal.list [],
    truncate_input := PyVal.bool true, truncate_output := PyVal.bool true }

/-- Field extraction from a resolved configuration entry
(langfuse_node_wrapper.py, lines 148-154): cfg.get with the documented
defaults when cfg is a mapping, the defaults outright otherwise. -/
def policyOfCfg : PyVal → NodePolicy
  | PyVal.dict es =>
      { input := (List.lookup "input" es).getD (PyVal.list []),
        output := (List.lookup "output" es).getD (PyVal.list []),
        truncate_input := (List.lookup "truncate_input" es).getD (PyVal.bool true),
        truncate_output := (List.lookup "truncate_output" es).getD (PyVal.bool true) }
  | _ => defaultNodePolicy

/-- Policy resolution performed by wrap_node (langfuse_node_wrapper.py,
lines 140-154): read the node entry, fall back to the _default entry when
it is absent or None (NODE_CONFIG.get returning None), and fall back to an
empty mapping when that too is absent. -/
def wrap_node_policy (config : List (String × PyVal)) (node_name : String) :
    NodePolicy :=
  let c0 := (List.lookup node_name config).getD PyVal.none
  if pyIsNone c0 then
    policyOfCfg ((List.lookup "_default" config).getD (PyVal.dict []))
  else policyOfCfg c0

/-- The truncation applied by _short_preview (langfuse_filtered_callback.py,
lines 37, 40, 50): text unchanged when it fits, else the max_chars prefix
followed by the truncation marker. -/
def truncAt (t : String) (maxChars : Nat) : String :=
  if pyLen t ≤ maxChars then t else pyTake t maxChars ++ "... [truncated]"

/-- The try-body of _short_preview (langfuse_filtered_callback.py, lines
31-50), in source order: a content-bearing object (the content rendered
verbatim markers for None content, truncated text for string content, a
small list or dict content passed through and a large or unsized one
raising), then plain text, then a model_dump-bearing record previewed via
the string rendering of its dump (the recursive call on str(dd) lands in
the plain-text branch and is inlined here), then str(s).  It raises exactly
where the Python body would reach the outer handler. -/
def _short_preview_try (s : PyVal) (maxChars : Nat) : Except PyExc PyVal :=
  match s with
  | PyVal.obj _ attrs hasModelDump dump _ strStr =>
      match List.lookup "content" attrs with
      | some content =>
          (match content with
           | PyVal.none => Except.ok (PyVal.str "[no-content]")
           | PyVal.str t => Except.ok (PyVal.str (truncAt t maxChars))
           | PyVal.list xs =>
               if xs.length ≤ maxChars then Except.ok (PyVal.list xs)
               else Except.error (PyExc.typeError "can only concatenate list (not str) to list")
           | PyVal.dict es =>
               if es.length ≤ maxChars then Except.ok (PyVal.dict es)
               else Except.error (PyExc.typeError "unhashable type: slice")
           | PyVal.df t shape cols =>
               if shape.headD 0 ≤ maxChars then Except.ok (PyVal.df t shape cols)
               else Except.error (PyExc.typeError "cannot concatenate DataFrame and str")
           | _ => Except.error (PyExc.typeError "object has no len"))
      | Option.none =>
          match (if hasModelDump then dump else Option.none) with
          | some d => Except.ok (PyVal.str (truncAt (pyRenderDict d) maxChars))
          | Option.none =>
              match strStr with
              | some t => Except.ok (PyVal.str (truncAt t maxChars))
              | Option.none => Except.error (PyExc.other "str raised")
  | PyVal.str t => Except.ok (PyVal.str (truncAt t maxChars))
  | v =>
      match pyStrOf v with
      | some t => Except.ok (PyVal.str (truncAt t maxChars))
      | Option.none => Except.error (PyExc.other "str raised")

/-- _short_preview (langfuse_filtered_callback.py, lines 28-52): None maps
to None before the try block, and any failure in the body is caught and
rendered as the unserializable marker. -/
def _short_preview (s : PyVal) (maxChars : Nat) : PyVal :=
  match s with
  | PyVal.none => PyVal.none
  | v =>
      match _short_preview_try v maxChars with
      | Except.ok r => r
      | Except.error _ => PyVal.str "[unserializable]"

/-- One prompt of the sanitization loop of on_llm_start
(langfuse_filtered_callback.py, line 110): the 80-character preview, with a
falsy preview replaced by the redaction marker via the or-expression; a
preview whose truth test raises propagates to the outer handler. -/
def sanitize_one (p : PyVal) : Except PyExc PyVal :=
  let sp := _short_preview p 80
  match pyTruthy sp with
  | some true => Except.ok sp
  | some false => Except.ok (PyVal.str "[REDACTED PROMPT]")
  | Option.none => Except.error (PyExc.valueError "truth value ambiguous")

/-- The sanitized prompt list built by on_llm_start
(langfuse_filtered_callback.py, lines 108-110): each prompt in order, with
the first raising sanitization aborting the loop (to be caught by the
outer handler). -/
def sanitize_prompts : List PyVal → Except PyExc (List PyVal)
  | [] => Except.ok []
  | p :: ps =>
      match sanitize_one p with
      | Except.error e => Except.error e
      | Except.ok q =>
          match sanitize_prompts ps with
          | Except.error e => Except.error e
          | Except.ok qs => Except.ok (q :: qs)

/-- on_llm_start (langfuse_filtered_callback.py, lines 90-123), modelled
after prompt extraction: sanitize the prompts, forward them to the inner
handler, retry the forward with keyword arguments when the first call
raises, and return None when sanitization or both forwards raise (the
nested except handlers).  inner1 and inner2 are the two forwarding calls
to the inner tracing handler, each of which may raise. -/
def on_llm_start (inner1 inner2 : List PyVal → Except PyExc PyVal)
    (prompts : List PyVal) : Option PyVal :=
  match sanitize_prompts prompts with
  | Except.error _ => Option.none
  | Except.ok sp =>
      match inner1 sp with
      | Except.ok r => some r
      | Except.error _ =>
          match inner2 sp with
          | Except.ok r => some r
          | Except.error _ => Option.none

/-- A node registered on the graph builder (build_graph.py): every
registration wraps its callable with wrap_node under wrapperName before
add_node.  branch ch is the chapter closure produced by get_subgraph(ch);
stage f is one of the fixed pipeline stages, wrapped under its own name. -/
inductive GraphNode where
  | branch (wrapperName : String) (ch : String)
  | stage (wrapperName : String) (f : String)
deriving DecidableEq, Repr

/-- The branch node name f-string chapter_{ch}_summary_node
(build_graph.py, lines 82-84). -/
def chapterNodeName (ch : String) : String :=
  "chapter_" ++ ch ++ "_summary_node"

/-- Python dict assignment d[k] = v on an association list: replace the
value in place when the key is present, append otherwise. -/
def dictInsert {α : Type} (m : List (String × α)) (k : String) (v : α) :
    List (String × α) :=
  if k ∈ m.map Prod.fst then
    m.map (fun e => if e.1 = k then (k, v) else e)
  else m ++ [(k, v)]

/-- The keys of an association list, in order. -/
def keysOf {α : Type} (m : List (String × α)) : List String := m.map Prod.fst

/-- One iteration of the chapter loop of build_graph (build_graph.py,
lines 78-84): wrap the chapter closure under the branch node name and
store it in the chapter_summary_nodes dict under that same name. -/
def insertChapter (m : List (String × GraphNode)) (ch : String) :
    List (String × GraphNode) :=
  dictInsert m (chapterNodeName ch) (GraphNode.branch (chapterNodeName ch) ch)

/-- The chapter_summary_nodes dict built by the loop of build_graph
(build_graph.py, lines 76-84): one wrapped branch closure per chapter
name, keyed by the branch node name. -/
def chapter_summary_nodes (chapters : List String) : List (String × GraphNode) :=
  chapters.foldl insertChapter []

/-- The graph produced by build_graph: the registered nodes in registration
order, the unconditional edges, and the conditional fan-out edge (its
source and its path map). -/
structure BuiltGraph where
  nodes : List (String × GraphNode)
  edges : List (String × String)
  conditionalSource : String
  conditionalTargets : List String

/-- The START sentinel of the graph library. -/
def STARTNode : String := "__start__"

/-- build_graph (build_graph.py, lines 67-139): the linear prefix, the
fan-in node, one branch node per configured chapter each with a direct
edge to the fan-in node, the conditional fan-out from the enumeration
stage over the branch names, and the merge and conversion suffix. -/
def build_graph (chapters : List String) : BuiltGraph :=
  let branches := chapter_summary_nodes chapters
  { nodes :=
      [("create_folder_dao", GraphNode.stage "create_folder_dao" "create_folder_dao"),
       ("enumerate_chapters_to_run_node",
        GraphNode.stage "enumerate_chapters_to_run_node" "enumerate_chapters_to_run_node"),
       ("chapter_summary_completed_node",
        GraphNode.stage "chapter_summary_completed_node" "chapter_summary_completed_node")]
      ++ branches
      ++ [("chapter_summary_deep_merge_node",
           GraphNode.stage "chapter_summary_deep_merge_node" "chapter_summary_deep_merge_node"),
          ("pydantic_to_dict_node",
           GraphNode.stage "pydantic_to_dict_node" "pydantic_to_dict_node")],
    edges :=
      [(STARTNode, "create_folder_dao"),
       ("create_folder_dao", "enumerate_chapters_to_run_node")]
      ++ branches.map (fun e => (e.1, "chapter_summary_completed_node"))
      ++ [("chapter_summary_completed_node", "chapter_summary_deep_merge_node"),
          ("chapter_summary_deep_merge_node", "pydantic_to_dict_node")],
    conditionalSource := "enumerate_chapters_to_run_node",
    conditionalTargets := branches.map Prod.fst }

/-- An entry of the chapter node dict: the branch closure of some chapter,
wrapped under and keyed by the branch node name of that chapter. -/
def branchForm (e : String × GraphNode) : Prop :=
  ∃ ch, e = (chapterNodeName ch, GraphNode.branch (chapterNodeName ch) ch)

/-- The partial-state update returned by the chapter closure invoke_subgraph
(build_graph.py, line 64), with s the output the chapter subgraph produced
for this invocation: a one-key update whose value is a one-element list
holding a single-entry mapping keyed by the chapter. -/
def invoke_subgraph_update (ch : String) (s : PyVal) : PyVal :=
  PyVal.dict [("internal_list_of_chapter_timelines",
               PyVal.list [PyVal.dict [(ch, s)]])]

/-- The character list of an appended string is the appended character
lists. -/
theorem str_data_append (a b : String) : (a ++ b).data = a.data ++ b.data := rfl

/-- C7: for text values the summarizer keeps short text unmodified, cuts
long text to the n-character prefix followed by the truncation marker, and
keeps the full text when the preview length is unset. -/
theorem summarize_text_preview (s : String) (m : Option Nat) :
    _summarize_value (PyVal.str s) m
      = Except.ok (Descriptor.strD (pyLen s)
          (match m with
           | Option.none => s
           | some n => if pyLen s ≤ n then s else pyTake s n ++ "... [truncated]")) := rfl

/-- C6: the value summarizer is total: for every runtime value and preview
length it returns a descriptor and never propagates an exception, the
except handlers turning any internal failure into a fallback descriptor. -/
theorem summarize_total (v : PyVal) (m : Option Nat) :
    ∃ d, _summarize_value v m = Except.ok d := by
  unfold _summarize_value
  cases h : _summarize_try v m with
  | ok d => exact ⟨d, by simp [h]⟩
  | error e =>
      cases h2 : pyStrOf v with
      | some s => exact ⟨Descriptor.reprD (pyTypeName v) (pyTake s 300), by simp [h, h2]⟩
      | none => exact ⟨Descriptor.typeOnlyD (pyTypeName v), by simp [h, h2]⟩

/-- C1 (failing run): a stage that always raises ValueError x, wrapped with
an available client whose span updates all succeed.  The caller observes
the ValueError and the span records the error marker, but the outer
fallback handler of the wrapper catches the re-raised stage exception and
invokes the stage callable a second time: the invocation count is 2, not
the 1 the claim requires. -/
theorem wrapped_stage_exception_reruns_node :
    wrapped_run [] [] true true "n"
        (fun _ => Except.error (PyExc.valueError "x"))
        (some ⟨false, false, false⟩) (PyVal.dict [])
      = (Except.error (PyExc.valueError "x"),
         [SpanEvent.inputSnap [], SpanEvent.outputErr "x"], 2) := rfl

/-- C2 (counterexample): on a stage that is not create_prompt_node, with
truncation disabled, the snapshot of a field path containing prompt holds
the full underlying value — the redaction rule only fires when truncation
is enabled, so the claim as stated (regardless of truncation) is false. -/
theorem untruncated_prompt_captured_in_full :
    _filter_snapshot (PyVal.dict [("prompt", PyVal.str "secret")]) ["prompt"]
        "chapter_summary_deep_merge_node" false
      = [("prompt", Descriptor.strD 6 "secret")] := rfl

/-- Looking up a path in a snapshot built as one entry per path yields the
entry of that path. -/
theorem lookup_map_entry {α : Type} (f : String → α) {p : String}
    {paths : List String} (hp : p ∈ paths) :
    List.lookup p (paths.map (fun q => (q, f q))) = some (f p) := by
  induction paths with
  | nil => cases hp
  | cons q qs ih =>
      by_cases h : p = q
      · subst h
        simp [List.lookup]
      · have hb : (p == q) = false := by simp [h]
        rcases List.mem_cons.mp hp with h1 | h1
        · exact absurd h1 h
        · simpa [List.lookup, hb] using ih h1

/-- A prompt-keyword path on a non-whitelisted stage with truncation on is
replaced by the fixed redaction marker. -/
theorem snapshot_entry_redacts (source : PyVal) (node_name : String) (p : String)
    (hk : strContains (pyLower p) "prompt" = true)
    (hn : node_name ≠ "create_prompt_node") :
    snapshot_entry source node_name true p = Descriptor.redactedPrompt := by
  have hb : (node_name == "create_prompt_node") = false := by simp [hn]
  unfold snapshot_entry
  simp [hk, hb]

/-- C3: for every field path whose lower-cased name contains prompt, on any
stage other than create_prompt_node and with truncation enabled, the
snapshot maps the path to the fixed redaction marker descriptor. -/
theorem prompt_paths_redacted (source : PyVal) (paths : List String)
    (node_name p : String) (hp : p ∈ paths)
    (hk : strContains (pyLower p) "prompt" = true)
    (hn : node_name ≠ "create_prompt_node") :
    List.lookup p (_filter_snapshot source paths node_name true)
      = some Descriptor.redactedPrompt := by
  unfold _filter_snapshot
  rw [lookup_map_entry _ hp, snapshot_entry_redacts source node_name p hk hn]

/-- Witness for C3 at a concrete stage, path and state. -/
theorem prompt_paths_redacted_witness :
    List.lookup "user_prompt"
        (_filter_snapshot (PyVal.dict [("user_prompt", PyVal.str "secret")])
          ["user_prompt"] "enumerate_chapters_to_run_node" true)
      = some Descriptor.redactedPrompt :=
  prompt_paths_redacted (PyVal.dict [("user_prompt", PyVal.str "secret")])
    ["user_prompt"] "enumerate_chapters_to_run_node" "user_prompt"
    (by simp) (by decide) (by decide)

/-- C2 (amended): on every stage other than create_prompt_node, with
truncation enabled for that stage, the snapshot value of a field path
containing prompt is the fixed redaction marker — a descriptor distinct
from every string descriptor, so the snapshot never holds the full
underlying value; the claim holds only under enabled truncation (see the
counterexample for disabled truncation). -/
theorem prompt_snapshot_redacted_when_truncating (source : PyVal)
    (paths : List String) (node_name p : String)
    (hp : p ∈ paths) (hk : strContains (pyLower p) "prompt" = true)
    (hn : node_name ≠ "create_prompt_node") :
    List.lookup p (_filter_snapshot source paths node_name true)
      = some Descriptor.redactedPrompt
    ∧ ∀ len pv, Descriptor.redactedPrompt ≠ Descriptor.strD len pv := by
  constructor
  · unfold _filter_snapshot
    rw [lookup_map_entry _ hp, snapshot_entry_redacts source node_name p hk hn]
  · intro len pv h
    cases h

/-- Witness for the amended C2 at a concrete stage, path and state. -/
theorem prompt_snapshot_redacted_when_truncating_witness :
    List.lookup "prompt_deck"
        (_filter_snapshot (PyVal.dict [("prompt_deck", PyVal.str "cards")])
          ["prompt_deck"] "pydantic_to_dict_node" true)
      = some Descriptor.redactedPrompt :=
  (prompt_snapshot_redacted_when_truncating
    (PyVal.dict [("prompt_deck", PyVal.str "cards")]) ["prompt_deck"]
    "pydantic_to_dict_node" "prompt_deck"
    (by simp) (by decide) (by decide)).1

/-- C4: a wrapped stage whose underlying callable returns normally returns
that same result for every client state, and with the tracing client
unavailable the wrapped invocation returns exactly what the unwrapped
callable returns on the same input. -/
theorem wrapped_preserves_result (input_paths output_paths : List String)
    (tin tout : Bool) (node_name : String) (node : PyVal → Except PyExc PyVal)
    (state : PyVal) (r : PyVal) (h : node state = Except.ok r) :
    (∀ client, (wrapped_run input_paths output_paths tin tout node_name node
        client state).1 = Except.ok r)
    ∧ (wrapped_run input_paths output_paths tin tout node_name node
        Option.none state).1 = node state := by
  constructor
  · intro client
    cases client with
    | none => simpa [wrapped_run] using h
    | some c =>
        by_cases hs : c.startSpanFails
        · simp [wrapped_run, hs, h]
        · cases h2 : pyStrOf state with
          | none => simp [wrapped_run, hs, h2, h]
          | some s => simp [wrapped_run, hs, h2, h]
  · simp [wrapped_run]

/-- Witness for C4 at a concrete stage, client and state. -/
theorem wrapped_preserves_result_witness :
    (wrapped_run ["folder_num"] [] true true "create_folder_dao"
        (fun _ => Except.ok (PyVal.str "done"))
        (some ⟨false, false, false⟩) (PyVal.dict [])).1
      = Except.ok (PyVal.str "done") :=
  (wrapped_preserves_result ["folder_num"] [] true true "create_folder_dao"
    (fun _ => Except.ok (PyVal.str "done")) (PyVal.dict []) (PyVal.str "done")
    rfl).1 (some ⟨false, false, false⟩)

/-- A value that is not None fails the None test. -/
theorem pyIsNone_eq_false {v : PyVal} (h : v ≠ PyVal.none) : pyIsNone v = false := by
  cases v <;> first | exact absurd rfl h | rfl

/-- C5 (counterexample): when the result of a stage is not a mapping, the
output snapshot is not limited to the type name of the result: for an
object result with a msg attribute the snapshot records the summarized
content of that attribute, so the claim that only the type name is
recorded, never content, is false. -/
theorem nonmapping_output_records_content :
    output_snapshot
        (PyVal.obj "ChapterOut" [("msg", PyVal.str "hello")] false Option.none
          (some "ChapterOut()") (some "ChapterOut()"))
        (PyVal.dict []) ["msg"] true
      = [("msg", Descriptor.strD 5 "hello")] := rfl

/-- C5 (amended): for a mapping result, a dotted output path a.b prefers
result.get(a) descended by b and falls back to the input state at the full
path when result.get(a) is None; an undotted path prefers the result entry
when the key is present and falls back to the input state otherwise.  For
a non-mapping result the wrapper does not record only the type name: a
path without the result. marker is resolved against the result and its
summarized content is recorded (falling back to the input state when the
resolved value is falsy). -/
theorem output_path_resolution (es : List (String × PyVal)) (state : PyVal)
    (paths : List String) (p : String) (tout : Bool) (hp : p ∈ paths) :
    (∀ top rest v, splitFirstDot p = some (top, rest) →
        List.lookup top es = some v → v ≠ PyVal.none →
        List.lookup p (output_snapshot (PyVal.dict es) state paths tout)
          = some (summarizeCaught (_get_attr_from_obj v rest) (outTruncate tout)))
    ∧ (∀ top rest, splitFirstDot p = some (top, rest) →
        (List.lookup top es).getD PyVal.none = PyVal.none →
        List.lookup p (output_snapshot (PyVal.dict es) state paths tout)
          = some (summarizeCaught (_get_attr_from_obj state p) (outTruncate tout)))
    ∧ (splitFirstDot p = Option.none → ∀ v, List.lookup p es = some v →
        List.lookup p (output_snapshot (PyVal.dict es) state paths tout)
          = some (summarizeCaught v (outTruncate tout)))
    ∧ (splitFirstDot p = Option.none → List.lookup p es = Option.none →
        List.lookup p (output_snapshot (PyVal.dict es) state paths tout)
          = some (summarizeCaught (_get_attr_from_obj state p) (outTruncate tout)))
    ∧ (∀ result, pyIsDict result = false → strStartsWith p "result." = false →
        pyTruthy (_get_attr_from_obj result p) = some true →
        List.lookup p (output_snapshot result state paths tout)
          = some (summarizeCaught (_get_attr_from_obj result p) (outTruncate tout))) := by
  have key : ∀ result : PyVal,
      List.lookup p (output_snapshot result state paths tout)
        = some (output_entry result state tout p) := by
    intro result
    unfold output_snapshot
    exact lookup_map_entry _ hp
  refine ⟨?_, ?_, ?_, ?_, ?_⟩
  · intro top rest v h hv hvn
    rw [key]
    simp [output_entry, h, hv, pyIsNone_eq_false hvn]
  · intro top rest h h0
    rw [key]
    simp [output_entry, h, h0, pyIsNone]
  · intro h v hv
    rw [key]
    simp [output_entry, h, hv]
  · intro h hnone
    rw [key]
    simp [output_entry, h, hnone]
  · intro result hdict hstart htr
    rw [key]
    cases result with
    | dict es2 => simp [pyIsDict] at hdict
    | none => simp [output_entry, hstart, htr]
    | str s => simp [output_entry, hstart, htr]
    | int n => simp [output_entry, hstart, htr]
    | bool b => simp [output_entry, hstart, htr]
    | list xs => simp [output_entry, hstart, htr]
    | df t sh cols => simp [output_entry, hstart, htr]
    | obj t a hm d r st => simp [output_entry, hstart, htr]

/-- Witness for the amended C5: a dotted path resolved preferentially
against a mapping result. -/
theorem output_path_resolution_witness :
    List.lookup "case_timeline.summary"
        (output_snapshot
          (PyVal.dict [("case_timeline", PyVal.dict [("summary", PyVal.str "text")])])
          (PyVal.dict []) ["case_timeline.summary"] true)
      = some (summarizeCaught
          (_get_attr_from_obj (PyVal.dict [("summary", PyVal.str "text")]) "summary")
          (outTruncate true)) :=
  (output_path_resolution
    [("case_timeline", PyVal.dict [("summary", PyVal.str "text")])]
    (PyVal.dict []) ["case_timeline.summary"] "case_timeline.summary" true
    (by simp)).1 "case_timeline" "summary"
    (PyVal.dict [("summary", PyVal.str "text")]) (by decide) rfl (by simp)

/-- C8: policy resolution in wrap_node never fails: a stage whose entry is
absent (or None) resolves to the policy of the _default entry, and with no
configuration at all (or with neither entry present) it degrades to empty
path lists with both truncation flags true. -/
theorem resolve_policy_defaults (config : List (String × PyVal)) (name : String) :
    ((List.lookup name config).getD PyVal.none = PyVal.none →
        wrap_node_policy config name
          = policyOfCfg ((List.lookup "_default" config).getD (PyVal.dict [])))
    ∧ (List.lookup name config = Option.none →
        List.lookup "_default" config = Option.none →
        wrap_node_policy config name = defaultNodePolicy)
    ∧ wrap_node_policy [] name = defaultNodePolicy := by
  refine ⟨?_, ?_, ?_⟩
  · intro h
    unfold wrap_node_policy
    simp [h, pyIsNone]
  · intro h1 h2
    unfold wrap_node_policy
    simp [h1, h2]
    rfl
  · rfl

/-- Witness for C8: a stage with no entry resolves to the _default policy. -/
theorem resolve_policy_defaults_witness :
    wrap_node_policy
        [("_default", PyVal.dict [("input", PyVal.list [PyVal.str "folder_num"])])]
        "unknown_node"
      = policyOfCfg (PyVal.dict [("input", PyVal.list [PyVal.str "folder_num"])]) :=
  (resolve_policy_defaults
    [("_default", PyVal.dict [("input", PyVal.list [PyVal.str "folder_num"])])]
    "unknown_node").1 rfl

/-- Sanitizing a string prompt longer than 80 characters yields exactly its
80-character prefix followed by the truncation marker. -/
theorem sanitize_one_long (p : String) (h : 80 < pyLen p) :
    sanitize_one (PyVal.str p)
      = Except.ok (PyVal.str (pyTake p 80 ++ "... [truncated]")) := by
  have h1 : ¬ (pyLen p ≤ 80) := by omega
  have h2 : (pyTake p 80 ++ "... [truncated]").data.isEmpty = false := by
    rw [str_data_append]
    cases (pyTake p 80).data <;> rfl
  unfold sanitize_one _short_preview _short_preview_try truncAt
  simp [h1, pyTruthy]
  cases (pyTake p 80).data <;> rfl

/-- Elementwise reading of a successfully sanitized prompt list. -/
theorem sanitize_prompts_get (l : List PyVal) :
    ∀ (l' : List PyVal) (i : Nat) (a : PyVal),
      sanitize_prompts l = Except.ok l' → l.get? i = some a →
      ∃ b, sanitize_one a = Except.ok b ∧ l'.get? i = some b := by
  induction l with
  | nil =>
      intro l' i a h1 h2
      cases h2
  | cons x xs ih =>
      intro l' i a h1 h2
      unfold sanitize_prompts at h1
      cases hx : sanitize_one x with
      | error e => rw [hx] at h1; cases h1
      | ok q =>
          rw [hx] at h1
          cases hxs : sanitize_prompts xs with
          | error e => rw [hxs] at h1; cases h1
          | ok qs =>
              rw [hxs] at h1
              cases h1
              cases i with
              | zero =>
                  cases h2
                  exact ⟨q, hx, rfl⟩
              | succ n => exact ih qs n a hxs h2

/-- C10: a string prompt longer than 80 characters is forwarded to the
inner tracing handler as its 80-character prefix followed by the
truncation marker, and on_llm_start never propagates an exception: when
sanitization raises, or when both forwarding attempts to the inner handler
raise, it returns None. -/
theorem on_llm_start_bounded_and_total
    (inner1 inner2 : List PyVal → Except PyExc PyVal)
    (prompts : List PyVal) (i : Nat) (p : String)
    (hi : prompts.get? i = some (PyVal.str p)) (hlen : 80 < pyLen p) :
    (∀ sp, sanitize_prompts prompts = Except.ok sp →
        sp.get? i = some (PyVal.str (pyTake p 80 ++ "... [truncated]")))
    ∧ (∀ e, sanitize_prompts prompts = Except.error e →
        on_llm_start inner1 inner2 prompts = Option.none)
    ∧ (∀ sp e1 e2, sanitize_prompts prompts = Except.ok sp →
        inner1 sp = Except.error e1 → inner2 sp = Except.error e2 →
        on_llm_start inner1 inner2 prompts = Option.none) := by
  refine ⟨?_, ?_, ?_⟩
  · intro sp hsp
    obtain ⟨b, hb, hget⟩ := sanitize_prompts_get prompts sp i (PyVal.str p) hsp hi
    rw [sanitize_one_long p hlen] at hb
    cases hb
    exact hget
  · intro e he
    unfold on_llm_start
    rw [he]
  · intro sp e1 e2 hsp h1 h2
    unfold on_llm_start
    simp [hsp, h1, h2]

/-- Witness for C10 at a concrete 81-character prompt and failing inner
handlers. -/
theorem on_llm_start_bounded_and_total_witness :
    on_llm_start (fun _ => Except.error (PyExc.other "inner1 failed"))
        (fun _ => Except.error (PyExc.other "inner2 failed"))
        [PyVal.str "aaaaaaaaaaaaaaaaaaaaaaaaaaaaaaaaaaaaaaaaaaaaaaaaaaaaaaaaaaaaaaaaaaaaaaaaaaaaaaabc"]
      = Option.none :=
  (on_llm_start_bounded_and_total
    (fun _ => Except.error (PyExc.other "inner1 failed"))
    (fun _ => Except.error (PyExc.other "inner2 failed"))
    [PyVal.str "aaaaaaaaaaaaaaaaaaaaaaaaaaaaaaaaaaaaaaaaaaaaaaaaaaaaaaaaaaaaaaaaaaaaaaaaaaaaaaabc"]
    0 "aaaaaaaaaaaaaaaaaaaaaaaaaaaaaaaaaaaaaaaaaaaaaaaaaaaaaaaaaaaaaaaaaaaaaaaaaaaaaaabc"
    rfl (by decide)).2.2
    [PyVal.str (pyTake "aaaaaaaaaaaaaaaaaaaaaaaaaaaaaaaaaaaaaaaaaaaaaaaaaaaaaaaaaaaaaaaaaaaaaaaaaaaaaaabc" 80
        ++ "... [truncated]")]
    (PyExc.other "inner1 failed") (PyExc.other "inner2 failed")
    (by rfl) (by rfl) (by rfl)

/-- Strings with equal character lists are equal. -/
theorem str_ext {a b : String} (h : a.data = b.data) : a = b := by
  cases a
  cases b
  exact congrArg String.mk h

/-- The branch node name determines the chapter. -/
theorem chapterNodeName_inj {a b : String}
    (h : chapterNodeName a = chapterNodeName b) : a = b := by
  unfold chapterNodeName at h
  have h2 := congrArg String.data h
  simp only [str_data_append] at h2
  exact str_ext (List.append_cancel_left (List.append_cancel_right h2))

/-- Every branch node name ends in the _summary_node marker. -/
theorem chapterNodeName_suffix (c : String) :
    "_summary_node".data <:+ (chapterNodeName c).data := by
  unfold chapterNodeName
  simp only [str_data_append]
  exact List.suffix_append _ _

/-- A name that does not end in the _summary_node marker is no branch node
name. -/
theorem chapterNodeName_ne {t : String}
    (h : ¬ ("_summary_node".data <:+ t.data)) (c : String) :
    chapterNodeName c ≠ t :=
  fun he => h (he ▸ chapterNodeName_suffix c)

/-- The keys after a dict assignment: unchanged when the key was present,
extended by the key otherwise. -/
theorem keysOf_dictInsert {α : Type} (m : List (String × α)) (k : String) (v : α) :
    keysOf (dictInsert m k v)
      = if k ∈ keysOf m then keysOf m else keysOf m ++ [k] := by
  unfold dictInsert keysOf
  by_cases h : k ∈ m.map Prod.fst
  · rw [if_pos h, if_pos h, List.map_map]
    refine List.map_congr_left ?_
    intro e he
    by_cases h2 : e.1 = k
    · simp [h2]
    · simp [h2]
  · rw [if_neg h, if_neg h]
    simp

/-- Key membership after a dict assignment. -/
theorem mem_keysOf_dictInsert {α : Type} (m : List (String × α))
    (k k' : String) (v : α) :
    k' ∈ keysOf (dictInsert m k v) ↔ k' ∈ keysOf m ∨ k' = k := by
  rw [keysOf_dictInsert]
  by_cases h : k ∈ keysOf m
  · rw [if_pos h]
    constructor
    · exact Or.inl
    · rintro (h1 | rfl)
      · exact h1
      · exact h
  · rw [if_neg h]
    simp

/-- A dict assignment keeps the keys free of duplicates. -/
theorem nodup_keysOf_dictInsert {α : Type} {m : List (String × α)}
    {k : String} {v : α} (hnd : (keysOf m).Nodup) :
    (keysOf (dictInsert m k v)).Nodup := by
  rw [keysOf_dictInsert]
  by_cases h : k ∈ keysOf m
  · rwa [if_pos h]
  · rw [if_neg h]
    refine hnd.append (List.nodup_singleton k) ?_
    intro a ha hb
    rw [List.mem_singleton] at hb
    exact h (hb ▸ ha)

/-- A dict assignment of an entry with a property preserves that property
of all entries. -/
theorem dictInsert_form {α : Type} {P : String × α → Prop}
    {m : List (String × α)} {k : String} {v : α}
    (hm : ∀ e ∈ m, P e) (hkv : P (k, v)) :
    ∀ e ∈ dictInsert m k v, P e := by
  intro e he
  unfold dictInsert at he
  by_cases h : k ∈ m.map Prod.fst
  · rw [if_pos h] at he
    obtain ⟨e0, he0, rfl⟩ := List.mem_map.mp he
    by_cases h2 : e0.1 = k
    · simpa [h2] using hkv
    · simpa [h2] using hm e0 he0
  · rw [if_neg h] at he
    rcases List.mem_append.mp he with h1 | h1
    · exact hm e h1
    · rw [List.mem_singleton] at h1
      exact h1 ▸ hkv

/-- Invariant of the chapter registration loop: keys stay duplicate-free,
entries stay branch registrations, earlier keys survive, and every chapter
of the remaining list ends up keyed. -/
theorem csn_fold (chapters : List String) :
    ∀ acc : List (String × GraphNode),
      (keysOf acc).Nodup → (∀ e ∈ acc, branchForm e) →
      (keysOf (List.foldl insertChapter acc chapters)).Nodup
      ∧ (∀ e ∈ List.foldl insertChapter acc chapters, branchForm e)
      ∧ (∀ k ∈ keysOf acc, k ∈ keysOf (List.foldl insertChapter acc chapters))
      ∧ (∀ c ∈ chapters,
          chapterNodeName c ∈ keysOf (List.foldl insertChapter acc chapters)) := by
  induction chapters with
  | nil =>
      intro acc h1 h2
      exact ⟨h1, h2, fun k hk => hk, fun c hc => absurd hc (List.not_mem_nil c)⟩
  | cons ch chs ih =>
      intro acc h1 h2
      rw [List.foldl_cons]
      have h1' : (keysOf (insertChapter acc ch)).Nodup := nodup_keysOf_dictInsert h1
      have h2' : ∀ e ∈ insertChapter acc ch, branchForm e :=
        dictInsert_form h2 ⟨ch, rfl⟩
      obtain ⟨a, b, c', d⟩ := ih (insertChapter acc ch) h1' h2'
      refine ⟨a, b, ?_, ?_⟩
      · intro k hk
        exact c' k ((mem_keysOf_dictInsert acc (chapterNodeName ch) k _).mpr (Or.inl hk))
      · intro c0 hc0
        rcases List.mem_cons.mp hc0 with rfl | hmem
        · exact c' _ ((mem_keysOf_dictInsert acc (chapterNodeName c0) _ _).mpr (Or.inr rfl))
        · exact d c0 hmem

/-- The chapter node dict has duplicate-free keys, branch-shaped entries,
and a key for every configured chapter. -/
theorem csn_props (chapters : List String) :
    (keysOf (chapter_summary_nodes chapters)).Nodup
    ∧ (∀ e ∈ chapter_summary_nodes chapters, branchForm e)
    ∧ (∀ c ∈ chapters,
        chapterNodeName c ∈ keysOf (chapter_summary_nodes chapters)) := by
  obtain ⟨a, b, _, d⟩ :=
    csn_fold chapters [] (by simp [keysOf]) (by intro e he; cases he)
  exact ⟨a, b, d⟩

/-- The branch registration of every configured chapter is an entry of
the chapter node dict. -/
theorem csn_entry {chapters : List String} {c : String} (hc : c ∈ chapters) :
    (chapterNodeName c, GraphNode.branch (chapterNodeName c) c)
      ∈ chapter_summary_nodes chapters := by
  obtain ⟨hnd, hform, hmem⟩ := csn_props chapters
  have hk := hmem c hc
  unfold keysOf at hk
  obtain ⟨e, he, hek⟩ := List.mem_map.mp hk
  obtain ⟨ch, rfl⟩ := hform e he
  have hcc : ch = c := chapterNodeName_inj hek
  subst hcc
  exact he

/-- The branch node name of every configured chapter occurs exactly once
among the chapter node dict keys. -/
theorem csn_count {chapters : List String} {c : String} (hc : c ∈ chapters) :
    (keysOf (chapter_summary_nodes chapters)).count (chapterNodeName c) = 1 := by
  obtain ⟨hnd, _, hmem⟩ := csn_props chapters
  exact List.count_eq_one_of_mem hnd (hmem c hc)

/-- C9: for every chapter c of the configured chapter set, build_graph
registers exactly one branch node, keyed and wrapped under the name
chapter_c_summary_node and holding the branch closure of c, with a direct
edge from that node to the fan-in node; and the branch closure returns
exactly the one-key update mapping internal_list_of_chapter_timelines to a
one-element list holding the single-entry mapping of c to the subgraph
output. -/
theorem branch_registration (chapters : List String) (c : String)
    (hc : c ∈ chapters) (s : PyVal) :
    (keysOf (build_graph chapters).nodes).count (chapterNodeName c) = 1
    ∧ (chapterNodeName c, GraphNode.branch (chapterNodeName c) c)
        ∈ (build_graph chapters).nodes
    ∧ (chapterNodeName c, "chapter_summary_completed_node")
        ∈ (build_graph chapters).edges
    ∧ invoke_subgraph_update c s
        = PyVal.dict [("internal_list_of_chapter_timelines",
            PyVal.list [PyVal.dict [(c, s)]])] := by
  have hnodes : (build_graph chapters).nodes
      = [("create_folder_dao",
          GraphNode.stage "create_folder_dao" "create_folder_dao"),
         ("enumerate_chapters_to_run_node",
          GraphNode.stage "enumerate_chapters_to_run_node" "enumerate_chapters_to_run_node"),
         ("chapter_summary_completed_node",
          GraphNode.stage "chapter_summary_completed_node" "chapter_summary_completed_node")]
        ++ chapter_summary_nodes chapters
        ++ [("chapter_summary_deep_merge_node",
             GraphNode.stage "chapter_summary_deep_merge_node" "chapter_summary_deep_merge_node"),
            ("pydantic_to_dict_node",
             GraphNode.stage "pydantic_to_dict_node" "pydantic_to_dict_node")] := rfl
  have hedges : (build_graph chapters).edges
      = [(STARTNode, "create_folder_dao"),
         ("create_folder_dao", "enumerate_chapters_to_run_node")]
        ++ (chapter_summary_nodes chapters).map
            (fun e => (e.1, "chapter_summary_completed_node"))
        ++ [("chapter_summary_completed_node", "chapter_summary_deep_merge_node"),
            ("chapter_summary_deep_merge_node", "pydantic_to_dict_node")] := rfl
  have hne1 : chapterNodeName c ≠ "create_folder_dao" :=
    chapterNodeName_ne (by decide) c
  have hne2 : chapterNodeName c ≠ "enumerate_chapters_to_run_node" :=
    chapterNodeName_ne (by decide) c
  have hne3 : chapterNodeName c ≠ "chapter_summary_completed_node" :=
    chapterNodeName_ne (by decide) c
  have hne4 : chapterNodeName c ≠ "chapter_summary_deep_merge_node" :=
    chapterNodeName_ne (by decide) c
  have hne5 : chapterNodeName c ≠ "pydantic_to_dict_node" :=
    chapterNodeName_ne (by decide) c
  refine ⟨?_, ?_, ?_, rfl⟩
  · have hkeys : keysOf (build_graph chapters).nodes
        = ["create_folder_dao", "enumerate_chapters_to_run_node",
           "chapter_summary_completed_node"]
          ++ keysOf (chapter_summary_nodes chapters)
          ++ ["chapter_summary_deep_merge_node", "pydantic_to_dict_node"] := by
      rw [hnodes]
      simp [keysOf]
    rw [hkeys, List.count_append, List.count_append, csn_count hc]
    simp [List.count_cons, hne1, hne2, hne3, hne4, hne5]
  · rw [hnodes]
    exact List.mem_append.mpr (Or.inl (List.mem_append.mpr (Or.inr (csn_entry hc))))
  · rw [hedges]
    refine List.mem_append.mpr (Or.inl (List.mem_append.mpr (Or.inr ?_)))
    exact List.mem_map_of_mem (fun e => (e.1, "chapter_summary_completed_node"))
      (csn_entry hc)

/-- Witness for C9 at a one-chapter configuration. -/
theorem branch_registration_witness :
    (keysOf (build_graph ["acute_care"]).nodes).count (chapterNodeName "acute_care") = 1
    ∧ (chapterNodeName "acute_care",
        GraphNode.branch (chapterNodeName "acute_care") "acute_care")
        ∈ (build_graph ["acute_care"]).nodes
    ∧ (chapterNodeName "acute_care", "chapter_summary_completed_node")
        ∈ (build_graph ["acute_care"]).edges
    ∧ invoke_subgraph_update "acute_care" (PyVal.str "timeline")
        = PyVal.dict [("internal_list_of_chapter_timelines",
            PyVal.list [PyVal.dict [("acute_care", PyVal.str "timeline")]])] :=
  branch_registration ["acute_care"] "acute_care" (by simp) (PyVal.str "timeline")
